import Mathlib

/-!
Verification development for the nim-clients repository.

The audio capture lifecycle of src/main.py is embedded as a labelled
transition system: the process state carries the global `running` flag
(src/main.py line 24), the status label text, and the program counters of
the capture threads spawned by `start_voice_filtering`.  All
nondeterminism (GUI events, thread scheduling, device errors raised by
pyaudio) is put into an explicit event list, so a run of the system is a
computable function of its event schedule.

The protobuf helper `create_protobuf_any_value` of src/utils/utils.py is
embedded directly, with Python's `isinstance` subtyping (bool is a
subtype of int) made explicit.
-/

/- Audio configuration constants, src/main.py lines 14-17.
   FORMAT = pyaudio.paInt16 means 2 bytes per sample. -/

def CHANNELS : Nat := 2

def RATE : Nat := 16000

def CHUNK : Nat := 1024

def BYTES_PER_SAMPLE : Nat := 2

/-- Byte length of one frame delivered by stream.read(CHUNK):
CHUNK samples, CHANNELS channels, 2 bytes per sample. -/
def FRAME_BYTES : Nat := CHUNK * CHANNELS * BYTES_PER_SAMPLE

/-- Text shown by the status label: "Idle" or "Running"
(src/main.py lines 74, 84, 105, 131). -/
inductive Label where
  | idle
  | running
deriving DecidableEq

/-- Program counter of one capture thread, following the body of
`capture_audio` (src/main.py lines 65-84):
* `entry`: thread spawned, about to execute `running = True` (line 68);
* `preOpen`: about to call `p.open(...)` (lines 71-72), which may raise;
* `preLabel`: stream opened, about to set the label to Running (line 74);
* `check`: at the `while running:` test (line 76);
* `body`: inside one loop iteration, `stream.read` / `process_audio` /
  `play_audio` (lines 77-79); `stream.read` may raise;
* `cleanup`: loop exited, about to close the stream and set the label
  to Idle (lines 81-84);
* `dead`: thread finished, or killed by an uncaught exception. -/
inductive ThreadPC where
  | entry
  | preOpen
  | preLabel
  | check
  | body
  | cleanup
  | dead
deriving DecidableEq

/-- Whole-process state relevant to the capture lifecycle:
`running` is the global flag (src/main.py line 24), `label` the status
label text, `threads` the program counters of the capture threads in
spawn order (most recent first), `openDevs` the number of currently open
device handles, `opens` the number of device opens ever performed, and
`frames` the number of completed loop iterations (frames read, processed
and played). -/
structure Sys where
  running : Bool
  label : Label
  threads : List ThreadPC
  openDevs : Nat
  opens : Nat
  frames : Nat
deriving DecidableEq

/-- Initial process state: module level of src/main.py.  The global flag
is initialised `running = True` (line 24), the status label is created
with text Idle (line 131), and no capture thread exists. -/
def init : Sys :=
  { running := true, label := Label.idle, threads := [], openDevs := 0,
    opens := 0, frames := 0 }

/-- `start_voice_filtering` (src/main.py lines 95-99): if the `running`
flag is set, return immediately; otherwise spawn a new capture thread
(its body has not yet begun executing). -/
def startOp (s : Sys) : Sys :=
  if s.running then s
  else { s with threads := ThreadPC.entry :: s.threads }

/-- `stop_voice_filtering` (src/main.py lines 101-105): set the `running`
flag to False and set the status label to Idle. -/
def stopOp (s : Sys) : Sys :=
  { s with running := false, label := Label.idle }

/-- One execution step of a capture thread at program counter `pc`,
mirroring `capture_audio` (src/main.py lines 65-84).  `err` tells
whether the fallible pyaudio call performed in this step (the `p.open`
at `preOpen`, the `stream.read` at `body`) raises a device error; an
uncaught exception kills the thread (daemon thread: the process
survives) and skips all cleanup.  Returns the new program counter and
the new shared state. -/
def stepThread (err : Bool) (pc : ThreadPC) (s : Sys) : ThreadPC × Sys :=
  match pc with
  | ThreadPC.entry => (ThreadPC.preOpen, { s with running := true })
  | ThreadPC.preOpen =>
      if err then (ThreadPC.dead, s)
      else (ThreadPC.preLabel,
            { s with openDevs := s.openDevs + 1, opens := s.opens + 1 })
  | ThreadPC.preLabel => (ThreadPC.check, { s with label := Label.running })
  | ThreadPC.check =>
      if s.running then (ThreadPC.body, s) else (ThreadPC.cleanup, s)
  | ThreadPC.body =>
      if err then (ThreadPC.dead, s)
      else (ThreadPC.check, { s with frames := s.frames + 1 })
  | ThreadPC.cleanup =>
      (ThreadPC.dead,
       { s with openDevs := s.openDevs - 1, label := Label.idle })
  | ThreadPC.dead => (ThreadPC.dead, s)

/-- Step the capture thread at index `i` of the thread list; a
nonexistent index leaves the state unchanged. -/
def threadStepAt (i : Nat) (err : Bool) (s : Sys) : Sys :=
  match s.threads.get? i with
  | none => s
  | some pc =>
      let r := stepThread err pc s
      { r.2 with threads := r.2.threads.set i r.1 }

/-- An event of the interleaved execution: a Start click, a Stop click,
or one step of capture thread `i` whose fallible pyaudio call (if any)
raises iff `err`. -/
inductive Ev where
  | start
  | stop
  | thread (i : Nat) (err : Bool)
deriving DecidableEq

/-- Apply one event to the state. -/
def doEv : Ev → Sys → Sys
  | Ev.start, s => startOp s
  | Ev.stop, s => stopOp s
  | Ev.thread i err, s => threadStepAt i err s

/-- Run a schedule of events from a state. -/
def run : List Ev → Sys → Sys
  | [], s => s
  | e :: es, s => run es (doEv e s)

/-- `process_audio` (src/main.py lines 86-88): the placeholder filter
stage returns its input byte buffer unchanged; its body is a single
`return` and cannot raise. -/
def process_audio (audio_data : List Nat) : List Nat := audio_data

/-- Python exceptions relevant to the claims: the ValueError raised by
`create_protobuf_any_value` (src/utils/utils.py line 297) and the
FormatError named by the spec's FilterStage boundary contract. -/
inductive PyError where
  | ValueError
  | FormatError
deriving DecidableEq

/-- The spec's FilterStage boundary behaviour (spec section 8): a buffer
of exactly FRAME_BYTES bytes is accepted, any other length is rejected
as FormatError.  This definition follows the spec's words; the code's
filter stage is `process_audio` above. -/
def filterStage_specModel (b : List Nat) : Except PyError (List Nat) :=
  if b.length = FRAME_BYTES then Except.ok (process_audio b)
  else Except.error PyError.FormatError

/- Embedding of `create_protobuf_any_value` (src/utils/utils.py lines
270-298).  A Python value of one of the dynamic types the function
inspects; float payloads are carried as an opaque identifier (their
numeric semantics play no role in the function), and `other` stands for
any value that is none of bool, int, float, str. -/

/-- A Python runtime value as seen by the isinstance chain of
`create_protobuf_any_value`. -/
inductive PyVal where
  | bool (b : Bool)
  | int (v : Int)
  | float (id : Nat)
  | str (s : String)
  | other (tag : Nat)
deriving DecidableEq

/-- Python `isinstance(value, bool)`. -/
def isinstance_bool : PyVal → Bool
  | PyVal.bool _ => true
  | _ => false

/-- Python `isinstance(value, int)`.  In Python, `bool` is a subclass of
`int`, so booleans also satisfy this test. -/
def isinstance_int : PyVal → Bool
  | PyVal.bool _ => true
  | PyVal.int _ => true
  | _ => false

/-- Python `isinstance(value, float)`. -/
def isinstance_float : PyVal → Bool
  | PyVal.float _ => true
  | _ => false

/-- Python `isinstance(value, str)`. -/
def isinstance_str : PyVal → Bool
  | PyVal.str _ => true
  | _ => false

/-- The boolean content of a value known to be a bool. -/
def pyBoolVal : PyVal → Bool
  | PyVal.bool b => b
  | _ => false

/-- The integer content of a value satisfying `isinstance(value, int)`;
Python's `True == 1` and `False == 0`. -/
def pyIntVal : PyVal → Int
  | PyVal.bool b => if b then 1 else 0
  | PyVal.int v => v
  | _ => 0

/-- The opaque float identifier of a float value. -/
def pyFloatVal : PyVal → Nat
  | PyVal.float id => id
  | _ => 0

/-- The string content of a str value. -/
def pyStrVal : PyVal → String
  | PyVal.str s => s
  | _ => ""

/-- The protobuf wrapper message packed into the `Any` by
`create_protobuf_any_value` (src/utils/utils.py lines 281-295). -/
inductive Wrapper where
  | BoolValue (b : Bool)
  | Int32Value (v : Int)
  | Int64Value (v : Int)
  | FloatValue (id : Nat)
  | StringValue (s : String)
deriving DecidableEq

/-- `create_protobuf_any_value` (src/utils/utils.py lines 270-298): the
isinstance chain checks bool first, then int (with the int32 range test
`value > 2147483647 or value < -2147483648` picking Int64Value over
Int32Value), then float, then str; any other type raises ValueError. -/
def create_protobuf_any_value (value : PyVal) : Except PyError Wrapper :=
  if isinstance_bool value then
    Except.ok (Wrapper.BoolValue (pyBoolVal value))
  else if isinstance_int value then
    if pyIntVal value > 2147483647 ∨ pyIntVal value < -2147483648 then
      Except.ok (Wrapper.Int64Value (pyIntVal value))
    else
      Except.ok (Wrapper.Int32Value (pyIntVal value))
  else if isinstance_float value then
    Except.ok (Wrapper.FloatValue (pyFloatVal value))
  else if isinstance_str value then
    Except.ok (Wrapper.StringValue (pyStrVal value))
  else
    Except.error PyError.ValueError

/-- Event schedule reaching a Stopping-phase state: one full
start/stop cycle is driven until the capture thread is mid-frame
(program counter `body`) and Stop has just been clicked, so the flag is
off but the loop has not yet exited. -/
def evs_stopping : List Ev :=
  [Ev.stop, Ev.start, Ev.thread 0 false, Ev.thread 0 false,
   Ev.thread 0 false, Ev.thread 0 false, Ev.stop]

/-- Event schedule in which Start is clicked from the Idle state (after
one Stop) and the capture thread's `p.open` call raises a device
error. -/
def evs_open_failure : List Ev :=
  [Ev.stop, Ev.start, Ev.thread 0 false, Ev.thread 0 true]

/-- Event schedule in which a capture session reaches the loop body and
the `stream.read` call of the first iteration raises a device error. -/
def evs_read_failure : List Ev :=
  [Ev.stop, Ev.start, Ev.thread 0 false, Ev.thread 0 false,
   Ev.thread 0 false, Ev.thread 0 false, Ev.thread 0 true]

/-- Claim C1 (code bug): the capture state is NOT created Idle at
process start.  The source initialises the global flag `running = True`
(src/main.py line 24) while the status label shows Idle, and the very
first Start click is consequently a no-op: the state after it is
unchanged and no capture thread or device open ever happens.  This
contradicts the claimed lifecycle (created Idle, Running after Start). -/
theorem C1_initial_state_running_start_noop :
    init.running = true ∧ init.label = Label.idle ∧ run [Ev.start] init = init :=
  ⟨rfl, rfl, rfl⟩

/-- Claim C2, counterexample: in a reachable Stopping-phase state (flag
just cleared by Stop, capture thread still mid-frame at `body`), a
Start click is NOT a no-op: it spawns a second capture thread, and two
further thread steps open a second audio device (total opens = 2). -/
theorem C2_counterexample :
    (run evs_stopping init).running = false ∧
    (run evs_stopping init).threads = [ThreadPC.body] ∧
    (run evs_stopping init).openDevs = 1 ∧
    (run (evs_stopping ++ [Ev.start]) init).threads =
      [ThreadPC.entry, ThreadPC.body] ∧
    (run (evs_stopping ++ [Ev.start, Ev.thread 0 false, Ev.thread 0 false])
        init).opens = 2 := by
  decide

/-- Claim C2 as amended: whenever the `running` flag is set (the
controller is Running), Start is a no-op — calling it once or twice
leaves the state unchanged, so no device is opened and no second
capture loop is launched.  (The Stopping phase is not protected: see
the counterexample.) -/
theorem C2_start_noop_when_running (s : Sys) (h : s.running = true) :
    startOp s = s ∧ startOp (startOp s) = startOp s := by
  have h1 : startOp s = s := by simp [startOp, h]
  exact ⟨h1, by rw [h1, h1]⟩

/-- Claim C2 amended, witness: in the initial state the flag is set and
both one and two Start clicks leave the state unchanged. -/
theorem C2_start_noop_when_running_witness :
    startOp init = init ∧ startOp (startOp init) = startOp init :=
  C2_start_noop_when_running init rfl

/-- Claim C3 (code bug): when Start is invoked from the Idle state
(flag false, after one Stop) and `p.open` raises a device error, the
state is NOT left Idle: `capture_audio` sets `running = True` before
opening the device (src/main.py line 68), the exception kills the
thread, and the flag stays True — so every later Start click is a
no-op.  The status label never shows Running and no device was opened,
but the flag-state is corrupted rather than left Idle. -/
theorem C3_open_failure_leaves_flag_true :
    (run [Ev.stop] init).running = false ∧
    run evs_open_failure init =
      { running := true, label := Label.idle, threads := [ThreadPC.dead],
        openDevs := 0, opens := 0, frames := 0 } ∧
    startOp (run evs_open_failure init) = run evs_open_failure init := by
  decide

/-- Claim C4 (code bug): a device error raised by `stream.read` inside
the capture loop is not caught anywhere: the exception kills the
thread, skipping the cleanup of src/main.py lines 81-84 — the device
handle stays open (leaked), the status label still shows Running, and
the `running` flag stays True, instead of the claimed
catch / surface / close / return-to-Idle. -/
theorem C4_loop_device_error_leaks_device :
    run evs_read_failure init =
      { running := true, label := Label.running, threads := [ThreadPC.dead],
        openDevs := 1, opens := 1, frames := 0 } := by
  decide

/-- Claim C5: Stop is cooperative.  After `stop_voice_filtering` clears
the flag, a capture thread sitting at the loop check or mid-frame (the
flag is only read at the `while running:` boundary, by construction of
`stepThread`) completes at most one further frame, exits, closes its
device handle, and the state ends Idle (label Idle, flag false), within
three error-free thread steps. -/
theorem C5_cooperative_stop (s0 : Sys)
    (h : s0.threads = [ThreadPC.check] ∨ s0.threads = [ThreadPC.body]) :
    (run [Ev.thread 0 false, Ev.thread 0 false, Ev.thread 0 false]
        (stopOp s0)).threads = [ThreadPC.dead] ∧
    (run [Ev.thread 0 false, Ev.thread 0 false, Ev.thread 0 false]
        (stopOp s0)).openDevs = s0.openDevs - 1 ∧
    (run [Ev.thread 0 false, Ev.thread 0 false, Ev.thread 0 false]
        (stopOp s0)).label = Label.idle ∧
    (run [Ev.thread 0 false, Ev.thread 0 false, Ev.thread 0 false]
        (stopOp s0)).frames ≤ s0.frames + 1 ∧
    (run [Ev.thread 0 false, Ev.thread 0 false, Ev.thread 0 false]
        (stopOp s0)).running = false ∧
    (run [Ev.thread 0 false, Ev.thread 0 false, Ev.thread 0 false]
        (stopOp s0)).opens = s0.opens := by
  obtain ⟨r, l, t, od, op, f⟩ := s0
  rcases h with h | h <;> simp only [Sys.threads] at h <;> subst h <;>
    simp [run, doEv, threadStepAt, stepThread, stopOp, List.get?]

/-- Claim C5, witness: a Running session mid-frame with one open device
and five completed frames, stopped, ends dead / closed / Idle having
completed exactly one further frame. -/
theorem C5_cooperative_stop_witness :
    (run [Ev.thread 0 false, Ev.thread 0 false, Ev.thread 0 false]
        (stopOp { running := true, label := Label.running,
                  threads := [ThreadPC.body], openDevs := 1, opens := 1,
                  frames := 5 })).threads = [ThreadPC.dead] ∧
    (run [Ev.thread 0 false, Ev.thread 0 false, Ev.thread 0 false]
        (stopOp { running := true, label := Label.running,
                  threads := [ThreadPC.body], openDevs := 1, opens := 1,
                  frames := 5 })).openDevs = 1 - 1 ∧
    (run [Ev.thread 0 false, Ev.thread 0 false, Ev.thread 0 false]
        (stopOp { running := true, label := Label.running,
                  threads := [ThreadPC.body], openDevs := 1, opens := 1,
                  frames := 5 })).label = Label.idle ∧
    (run [Ev.thread 0 false, Ev.thread 0 false, Ev.thread 0 false]
        (stopOp { running := true, label := Label.running,
                  threads := [ThreadPC.body], openDevs := 1, opens := 1,
                  frames := 5 })).frames ≤ 5 + 1 ∧
    (run [Ev.thread 0 false, Ev.thread 0 false, Ev.thread 0 false]
        (stopOp { running := true, label := Label.running,
                  threads := [ThreadPC.body], openDevs := 1, opens := 1,
                  frames := 5 })).running = false ∧
    (run [Ev.thread 0 false, Ev.thread 0 false, Ev.thread 0 false]
        (stopOp { running := true, label := Label.running,
                  threads := [ThreadPC.body], openDevs := 1, opens := 1,
                  frames := 5 })).opens = 1 :=
  C5_cooperative_stop _ (Or.inr rfl)

/-- Claim C6: for every valid frame (a buffer of exactly
FRAME_BYTES = frameSize * channels * bytesPerSample bytes), the default
identity FilterStage `process_audio` returns a frame of the same length
with the same byte content. -/
theorem C6_identity_filter_roundtrip (b : List Nat) (_h : b.length = FRAME_BYTES) :
    (process_audio b).length = b.length ∧ process_audio b = b :=
  ⟨rfl, rfl⟩

/-- Claim C6, witness: a concrete 4096-byte frame of zeros is valid and
passes through unchanged. -/
theorem C6_identity_filter_roundtrip_witness :
    (List.replicate 4096 (0 : Nat)).length = FRAME_BYTES ∧
    ((process_audio (List.replicate 4096 (0 : Nat))).length =
        (List.replicate 4096 (0 : Nat)).length ∧
      process_audio (List.replicate 4096 (0 : Nat)) =
        List.replicate 4096 (0 : Nat)) :=
  ⟨by rw [List.length_replicate]; decide,
   C6_identity_filter_roundtrip _ (by rw [List.length_replicate]; decide)⟩

/-- Claim C7, counterexample: the one-byte buffer [0] has invalid
length, yet `process_audio` accepts it and returns it unchanged — it is
not rejected, and no FormatError exists anywhere in the code ( the
function's body is a bare `return`).  The spec-modelled FilterStage
would reject the same input. -/
theorem C7_counterexample :
    process_audio [0] = [0] ∧
    ([0] : List Nat).length ≠ FRAME_BYTES ∧
    filterStage_specModel [0] = Except.error PyError.FormatError :=
  ⟨rfl, by decide, rfl⟩

/-- Claim C7 as amended: `process_audio` performs no length validation
at all — every buffer, of valid length or any other length, is accepted
and returned unchanged, and the code can raise no FormatError. -/
theorem C7_no_length_validation : ∀ b : List Nat, process_audio b = b :=
  fun _ => rfl

/-- Claim C8: calling Stop when the controller is already Idle (flag
false, label Idle) is a no-op — the state is exactly unchanged, and
`stop_voice_filtering` is a total operation that raises nothing. -/
theorem C8_stop_idempotent_when_idle (s : Sys) (h1 : s.running = false)
    (h2 : s.label = Label.idle) : stopOp s = s := by
  cases s
  simp_all [stopOp]

/-- Claim C8, witness: Stop on a concrete Idle state returns it
unchanged. -/
theorem C8_stop_idempotent_when_idle_witness :
    stopOp { running := false, label := Label.idle, threads := [],
             openDevs := 0, opens := 0, frames := 0 } =
      { running := false, label := Label.idle, threads := [],
        openDevs := 0, opens := 0, frames := 0 } :=
  C8_stop_idempotent_when_idle _ rfl rfl

/-- Claim C9: the global `running` flag is initialised True, and along
every event schedule that never contains a Stop click the state stays
exactly the initial one — in particular the very first Start click
returns immediately, launches no capture thread and opens no device;
Start can only have an effect after at least one Stop. -/
theorem C9_start_noop_until_stop :
    init.running = true ∧
      ∀ evs : List Ev, Ev.stop ∉ evs → run evs init = init := by
  refine ⟨rfl, ?_⟩
  intro evs
  induction evs with
  | nil => intro _; rfl
  | cons e es ih =>
    intro h
    have he : e ≠ Ev.stop := fun hc => h (hc ▸ List.mem_cons_self _ _)
    have hes : Ev.stop ∉ es := fun hc => h (List.mem_cons_of_mem _ hc)
    have hstep : doEv e init = init := by
      cases e with
      | start => rfl
      | stop => exact absurd rfl he
      | thread i err => rfl
    calc run (e :: es) init = run es (doEv e init) := rfl
      _ = run es init := by rw [hstep]
      _ = init := ih hes

/-- Claim C9, witness: a concrete Stop-free schedule of two Start
clicks and one thread step leaves the state initial. -/
theorem C9_start_noop_until_stop_witness :
    Ev.stop ∉ [Ev.start, Ev.start, Ev.thread 0 false] ∧
    run [Ev.start, Ev.start, Ev.thread 0 false] init = init :=
  ⟨by decide, C9_start_noop_until_stop.2 _ (by decide)⟩

/-- Claim C10: `create_protobuf_any_value` checks bool before int —
booleans satisfy Python's `isinstance(value, int)` yet are packed as
BoolValue, never an integer wrapper; a non-bool int v is packed as
Int64Value exactly when v > 2147483647 or v < -2147483648 and as
Int32Value otherwise; floats and strings are packed as FloatValue and
StringValue; every value of any other type raises ValueError. -/
theorem C10_create_protobuf_any_value_dispatch :
    (∀ b : Bool,
      isinstance_int (PyVal.bool b) = true ∧
      create_protobuf_any_value (PyVal.bool b) =
        Except.ok (Wrapper.BoolValue b)) ∧
    (∀ v : Int,
      (create_protobuf_any_value (PyVal.int v) =
          Except.ok (Wrapper.Int64Value v) ↔
        2147483647 < v ∨ v < -2147483648) ∧
      (create_protobuf_any_value (PyVal.int v) =
          Except.ok (Wrapper.Int32Value v) ↔
        v ≤ 2147483647 ∧ -2147483648 ≤ v)) ∧
    (∀ id : Nat, create_protobuf_any_value (PyVal.float id) =
        Except.ok (Wrapper.FloatValue id)) ∧
    (∀ s : String, create_protobuf_any_value (PyVal.str s) =
        Except.ok (Wrapper.StringValue s)) ∧
    (∀ t : Nat, create_protobuf_any_value (PyVal.other t) =
        Except.error PyError.ValueError) := by
  refine ⟨fun b => ⟨rfl, rfl⟩, fun v => ?_, fun id => rfl, fun s => rfl,
    fun t => rfl⟩
  constructor <;>
    simp only [create_protobuf_any_value, isinstance_bool, isinstance_int,
      pyIntVal, Bool.false_eq_true, if_false, if_true] <;>
    split_ifs with hc <;> simp_all <;> omega

/-- Claim C10, witness: the boundary values 2147483648 and 2147483647
are packed as Int64Value and Int32Value respectively, True is packed as
BoolValue, and a value of an unsupported type raises ValueError. -/
theorem C10_create_protobuf_any_value_dispatch_witness :
    create_protobuf_any_value (PyVal.bool true) =
      Except.ok (Wrapper.BoolValue true) ∧
    create_protobuf_any_value (PyVal.int 2147483648) =
      Except.ok (Wrapper.Int64Value 2147483648) ∧
    create_protobuf_any_value (PyVal.int 2147483647) =
      Except.ok (Wrapper.Int32Value 2147483647) ∧
    create_protobuf_any_value (PyVal.other 0) =
      Except.error PyError.ValueError :=
  ⟨(C10_create_protobuf_any_value_dispatch.1 true).2,
   (C10_create_protobuf_any_value_dispatch.2.1 2147483648).1.mpr
     (Or.inl (by norm_num)),
   (C10_create_protobuf_any_value_dispatch.2.1 2147483647).2.mpr
     (by norm_num),
   C10_create_protobuf_any_value_dispatch.2.2.2.2 0⟩
